import Mathlib

/-!
Shallow embedding of the Magnum Opus keystroke-dynamics biometric engine
(src/services/biometrics.ts), the decision logic of the login flow
(src/components/LoginFlow.tsx) and the configuration constants
(src/constants.ts, the variant the specification cites).  JavaScript numbers
in the statistics pipeline are modelled as `Option ℚ`: `some q` is a finite
value in exact rational arithmetic, `none` models `NaN`/`undefined`, which
propagate through arithmetic and make every comparison evaluate to false,
as in JavaScript.
-/

/-- A JavaScript numeric value: `none` is `NaN`/`undefined`. -/
abbrev JSVal := Option ℚ

def jadd : JSVal → JSVal → JSVal
  | some x, some y => some (x + y)
  | _, _ => none

def jsub : JSVal → JSVal → JSVal
  | some x, some y => some (x - y)
  | _, _ => none

def jmul : JSVal → JSVal → JSVal
  | some x, some y => some (x * y)
  | _, _ => none

/-- Division of JavaScript values.  Every call site in the source guards the
divisor away from zero; a zero divisor is mapped to `none`. -/
def jdiv : JSVal → JSVal → JSVal
  | some x, some y => if y = 0 then none else some (x / y)
  | _, _ => none

def jabs : JSVal → JSVal
  | some x => some |x|
  | none => none

/-- JavaScript `<` on numbers: false when either side is `NaN`. -/
def jlt : JSVal → JSVal → Bool
  | some x, some y => decide (x < y)
  | _, _ => false

/-- Array indexing `l[i]`: `undefined` (`none`) when out of range. -/
def jindex (l : List JSVal) (i : ℕ) : JSVal := (l.get? i).join

def jsum (l : List JSVal) : JSVal := l.foldl jadd (some 0)

/-- Model of `mean` (src/services/biometrics.ts:46): 0 on the empty list,
otherwise the sum divided by the length. -/
def jmean (l : List JSVal) : JSVal :=
  if l.length = 0 then some 0 else (jsum l).map (fun s => s / (l.length : ℚ))

/-- Square of the population standard deviation `stdDev`
(src/services/biometrics.ts:54): 0 when fewer than two samples.  The square
root itself is never materialised in this development: `removeOutliers`
compares squares, which is equivalent because both sides of its comparisons
are nonnegative. -/
def jvariance (l : List JSVal) (m : JSVal) : JSVal :=
  if l.length < 2 then some 0
  else jmean (l.map (fun v => jmul (jsub v m) (jsub v m)))

def OUTLIER_Z_THRESHOLD : ℚ := 5/2

/-- Model of `removeOutliers` (src/services/biometrics.ts:76): z-score filter,
skipped for fewer than three samples or zero variance.  The source test
`|v − m| / s < z` with `s = sqrt(variance)` is expressed as
`(v − m)² < z² · variance`, and the source guard `s === 0` as
`variance = some 0`; both rewrites are equivalences for nonnegative `s`. -/
def removeOutliers (values : List JSVal) (zThreshold : ℚ) : List JSVal :=
  if values.length < 3 then values
  else
    let m := jmean values
    let s2 := jvariance values m
    if s2 = some 0 then values
    else values.filter (fun v =>
      jlt (jmul (jsub v m) (jsub v m)) (jmul (some (zThreshold * zThreshold)) s2))

/-- Model of `calculateMAD` (src/services/biometrics.ts:65): mean absolute
deviation, 0 on the empty list; the mean is passed in by the caller exactly as
in `buildFeatureStats`. -/
def calculateMAD (values : List JSVal) (m : JSVal) : JSVal :=
  if values.length = 0 then some 0
  else jmean (values.map (fun v => jabs (jsub v m)))

def jmin2 : JSVal → JSVal → JSVal
  | some x, some y => some (min x y)
  | _, _ => none

def jmax2 : JSVal → JSVal → JSVal
  | some x, some y => some (max x y)
  | _, _ => none

/-- Model of `Math.min(...values)`; the empty case (JavaScript `Infinity`)
cannot arise at the call site and is mapped to `none`. -/
def jminList : List JSVal → JSVal
  | [] => none
  | v :: vs => vs.foldl jmin2 v

def jmaxList : List JSVal → JSVal
  | [] => none
  | v :: vs => vs.foldl jmax2 v

/-- Model of `transpose` (src/services/biometrics.ts:99): the output is sized
by the first row (`matrix[0].length` columns); entries missing from shorter
rows are read as `undefined`. -/
def transpose (matrix : List (List ℚ)) : List (List JSVal) :=
  if matrix.length = 0 then []
  else (List.range (matrix.headD []).length).map (fun c =>
    matrix.map (fun row => row.get? c))

/-- Per-position cleaning step of `buildFeatureStats`: outliers removed,
falling back to the raw values when everything was filtered out. -/
def posCleaned (positionValues : List JSVal) : List JSVal :=
  let cleaned := removeOutliers positionValues OUTLIER_Z_THRESHOLD
  if cleaned.length > 0 then cleaned else positionValues

def posMean (positionValues : List JSVal) : JSVal :=
  jmean (posCleaned positionValues)

def posMAD (positionValues : List JSVal) : JSVal :=
  calculateMAD (posCleaned positionValues) (posMean positionValues)

def posMin (positionValues : List JSVal) : JSVal :=
  jminList (posCleaned positionValues)

def posMax (positionValues : List JSVal) : JSVal :=
  jmaxList (posCleaned positionValues)

structure FeatureStats where
  mean : List JSVal
  mad : List JSVal
  min : List JSVal
  max : List JSVal
deriving Repr, DecidableEq

/-- Loop body of `buildFeatureStats`: append the statistics of one position
to the four arrays. -/
def statsStep (stats : FeatureStats) (pv : List JSVal) : FeatureStats :=
  { mean := stats.mean ++ [posMean pv]
    mad := stats.mad ++ [posMAD pv]
    min := stats.min ++ [posMin pv]
    max := stats.max ++ [posMax pv] }

/-- Model of `buildFeatureStats` (src/services/biometrics.ts:185): one pass
over the transposed matrix, appending the per-position statistics to four
arrays. -/
def buildFeatureStats (allValues : List (List ℚ)) : FeatureStats :=
  (transpose allValues).foldl statsStep ⟨[], [], [], []⟩

structure KeystrokeTimings where
  dwellTimes : List ℚ
  flightTimes : List ℚ
  ddLatencies : List ℚ
  totalTime : ℚ
deriving Repr, DecidableEq

structure CalibrationAttempt where
  timings : KeystrokeTimings
  isValid : Bool
deriving Repr, DecidableEq

/-- Model of `BiometricProfile`.  The `quality` field (a Real-valued score,
see `calculateProfileQuality`) and the `createdAt` wall-clock stamp are kept
outside the computable profile structure. -/
structure BiometricProfile where
  dwell : FeatureStats
  flight : FeatureStats
  dd : FeatureStats
  sampleCount : ℕ
  targetText : String
  textLength : ℕ
deriving Repr, DecidableEq

inductive BuildError
  | noValidAttempts
deriving Repr, DecidableEq

/-- Model of `buildProfile` (src/services/biometrics.ts:245): filter the valid
attempts, fail when none are left, otherwise build the three feature
statistics. -/
def buildProfile (attempts : List CalibrationAttempt) (targetText : String) :
    Except BuildError BiometricProfile :=
  let validAttempts := attempts.filter (fun a => a.isValid)
  if validAttempts.length = 0 then Except.error BuildError.noValidAttempts
  else Except.ok
    { dwell := buildFeatureStats (validAttempts.map (fun a => a.timings.dwellTimes))
      flight := buildFeatureStats (validAttempts.map (fun a => a.timings.flightTimes))
      dd := buildFeatureStats (validAttempts.map (fun a => a.timings.ddLatencies))
      sampleCount := validAttempts.length
      targetText := targetText
      textLength := targetText.length }

/-- The accumulation loop of `calculateProfileQuality`
(src/services/biometrics.ts:219): total coefficient of variation and count of
positions with positive mean. -/
def qualityAccum (stats : FeatureStats) : JSVal × ℕ :=
  (List.range stats.mean.length).foldl
    (fun acc i =>
      if jlt (some 0) (jindex stats.mean i) then
        (jadd acc.1 (jdiv (jindex stats.mad i) (jindex stats.mean i)), acc.2 + 1)
      else acc)
    (some 0, 0)

/-- JavaScript `Math.round`: half-up, ties toward positive infinity. -/
def jsRound (q : ℚ) : ℤ := ⌊q + 1/2⌋

/-- Model of `clamp` (src/services/biometrics.ts:39). -/
def clampQ (value lo hi : ℚ) : ℚ := max lo (min hi value)

noncomputable def jsRoundR (x : ℝ) : ℤ := ⌊x + 1/2⌋

noncomputable def clampR (value lo hi : ℝ) : ℝ := max lo (min hi value)

/-- Model of `calculateProfileQuality` (src/services/biometrics.ts:212):
`Math.round(clamp(exp(-avgCV * 2) * 100, 0, 100))`, `some 0` when no position
has a positive mean, `none` when the accumulated total is `NaN`. -/
noncomputable def calculateProfileQuality (stats : FeatureStats) : Option ℤ :=
  let acc := qualityAccum stats
  if acc.2 = 0 then some 0
  else acc.1.map (fun totalCV =>
    jsRoundR (clampR (Real.exp (-(((totalCV / (acc.2 : ℚ)) : ℚ) : ℝ) * 2) * 100) 0 100))

def MIN_MAD_THRESHOLD : ℚ := 40

/-- JavaScript `v || dflt` on numbers: `undefined`, `NaN` and `0` are falsy. -/
def truthyOr (v : JSVal) (dflt : ℚ) : ℚ :=
  match v with
  | none => dflt
  | some q => if q = 0 then dflt else q

/-- Effective MAD used by the scorer:
`Math.max(profileMAD[i] || MIN_MAD, MIN_MAD)` with `MIN_MAD = 40`
(src/services/biometrics.ts:328). -/
def effMAD (v : JSVal) : ℚ := max (truthyOr v MIN_MAD_THRESHOLD) MIN_MAD_THRESHOLD

/-- Model of `scaledManhattan` (src/services/biometrics.ts:312): truncate to
the shortest of the three arrays, return the sentinel 10 when nothing is
comparable, otherwise average the per-position penalties
`min(|attempt − mean| / max(mad || 40, 40), 3)`.  The attempt value is read
through `attemptValues[i] || 0`, which is the identity on in-range plain
numbers (`0` maps to `0`). -/
def scaledManhattan (attemptValues : List ℚ) (profileMean profileMAD : List JSVal) : ℚ :=
  let len := min attemptValues.length (min profileMean.length profileMAD.length)
  if len = 0 then 10
  else
    (((List.range len).map (fun i =>
      min (|attemptValues.getD i 0 - truthyOr (jindex profileMean i) 0| /
        effMAD (jindex profileMAD i)) 3)).sum) / (len : ℚ)

def FEATURE_WEIGHT_DWELL : ℚ := 3/10

def FEATURE_WEIGHT_FLIGHT : ℚ := 1/2

def FEATURE_WEIGHT_DD : ℚ := 1/5

/-- Model of `MatchResult` as constructed by `calculateMatch` in
src/services/biometrics.ts: no liveness component; the constant `weights`
record is represented by the three `FEATURE_WEIGHT` definitions. -/
structure MatchResult where
  distance : ℚ
  confidence : ℚ
  dwellScore : ℚ
  flightScore : ℚ
  ddScore : ℚ
deriving Repr, DecidableEq

/-- The confidence conversion inside `calculateMatch`
(src/services/biometrics.ts:385): linear decay clamped to [0, 100], then
rounded to one decimal. -/
def confFromDistance (d : ℚ) : ℚ :=
  ((jsRound ((clampQ ((1 - d / (5/2)) * 100) 0 100) * 10) : ℚ)) / 10

/-- Model of `calculateMatch` (src/services/biometrics.ts:345).  In this exact
rational embedding `scaledManhattan` is total and finite (its divisor is at
least 40), so the source guard `isFinite(score) ? score : 10` is the
identity. -/
def calculateMatch (timings : KeystrokeTimings) (profile : BiometricProfile) : MatchResult :=
  let dwellScore := scaledManhattan timings.dwellTimes profile.dwell.mean profile.dwell.mad
  let flightScore := scaledManhattan timings.flightTimes profile.flight.mean profile.flight.mad
  let ddScore := scaledManhattan timings.ddLatencies profile.dd.mean profile.dd.mad
  let distance := dwellScore * FEATURE_WEIGHT_DWELL + flightScore * FEATURE_WEIGHT_FLIGHT +
    ddScore * FEATURE_WEIGHT_DD
  { distance := distance
    confidence := confFromDistance distance
    dwellScore := dwellScore
    flightScore := flightScore
    ddScore := ddScore }

def THRESHOLD_ACCEPT : ℚ := 11/20

def THRESHOLD_CHALLENGE : ℚ := 17/20

def THRESHOLD_REJECT : ℚ := 11/10

def CHALLENGE_THRESHOLD : ℚ := 9/10

def CHALLENGE_WEIGHT_MANTRA : ℚ := 11/20

def CHALLENGE_WEIGHT_ANSWER : ℚ := 9/20

def MIN_CONFIDENCE_ACCEPT : ℚ := 55

def MIN_CONFIDENCE_CHALLENGE : ℚ := 35

inductive AuthStatus
  | granted
  | denied
  | challenge
deriving Repr, DecidableEq

/-- Decision logic of `handleMantraComplete`
(src/components/LoginFlow.tsx:112-137): the login flow in src/ branches on
the distance alone. -/
def decideMantra (m : MatchResult) : AuthStatus :=
  if m.distance < THRESHOLD_ACCEPT then AuthStatus.granted
  else if THRESHOLD_REJECT < m.distance then AuthStatus.denied
  else AuthStatus.challenge

/-- Combined score of `handleChallengeComplete`
(src/components/LoginFlow.tsx:155-157). -/
def combinedDistance (mantraDistance answerDistance : ℚ) : ℚ :=
  mantraDistance * CHALLENGE_WEIGHT_MANTRA + answerDistance * CHALLENGE_WEIGHT_ANSWER

/-- Decision logic of `handleChallengeComplete`
(src/components/LoginFlow.tsx:162-165): pass exactly when the combined
distance is below `CHALLENGE_THRESHOLD`; the outcome is terminal. -/
def decideChallenge (mantraDistance answerDistance : ℚ) : AuthStatus :=
  if combinedDistance mantraDistance answerDistance < CHALLENGE_THRESHOLD then
    AuthStatus.granted
  else AuthStatus.denied

def qmean (l : List ℚ) : ℚ := if l.length = 0 then 0 else l.sum / (l.length : ℚ)

def qvariance (l : List ℚ) : ℚ :=
  if l.length < 2 then 0
  else ((l.map (fun v => (v - qmean l) ^ 2)).sum) / (l.length : ℚ)

/-- Plain-rational mean absolute deviation, used to state the specification's
global-MAD blending (claim about small-sample smoothing). -/
def qMAD (l : List ℚ) : ℚ :=
  if l.length = 0 then 0 else ((l.map (fun v => |v - qmean l|)).sum) / (l.length : ℚ)

inductive LivenessFlag
  | lowDwellVariance
  | suspiciousDwellCV
  | lowFlightVariance
  | suspiciousFlightCV
  | repeatingDwellPattern
  | repeatingFlightPattern
deriving Repr, DecidableEq

structure Liveness where
  isHuman : Bool
  score : ℚ
  flags : List LivenessFlag
deriving Repr, DecidableEq

def MIN_DWELL_STDDEV : ℚ := 8

def MIN_FLIGHT_STDDEV : ℚ := 15

def MIN_HUMAN_CV : ℚ := 1/20

/-- Three consecutive near-identical values (pairwise difference below 5 ms). -/
def hasRepeatingPattern : List ℚ → Bool
  | a :: b :: c :: rest =>
      (decide (|b - a| < 5) && decide (|c - b| < 5)) || hasRepeatingPattern (b :: c :: rest)
  | _ => false

/-- Modelled from the spec: the Liveness Detector of spec §4.3 has no
implementation under src/ — only the liveness-carrying MatchResult type
declaration (second types.ts variant embedded in src/deploy.sh) and a
consumer (src/components/ResultChart.tsx) are present.  Start at score 1.0,
subtract independent additive penalties, clamp to [0, 1]; human means score
at least 0.5.  Standard-deviation thresholds are expressed as squared
(variance) comparisons, equivalent since both sides are nonnegative. -/
def detectLiveness (t : KeystrokeTimings) : Liveness :=
  let dwellLowVar : Bool := decide (3 ≤ t.dwellTimes.length) &&
    decide (qvariance t.dwellTimes < MIN_DWELL_STDDEV ^ 2)
  let dwellLowCV : Bool := decide (0 < qmean t.dwellTimes) &&
    decide (qvariance t.dwellTimes < (MIN_HUMAN_CV * qmean t.dwellTimes) ^ 2)
  let flightLowVar : Bool := decide (3 ≤ t.flightTimes.length) &&
    decide (qvariance t.flightTimes < MIN_FLIGHT_STDDEV ^ 2)
  let flightLowCV : Bool := decide (0 < qmean t.flightTimes) &&
    decide (qvariance t.flightTimes < (MIN_HUMAN_CV * qmean t.flightTimes) ^ 2)
  let dwellRepeat := hasRepeatingPattern t.dwellTimes
  let flightRepeat := hasRepeatingPattern t.flightTimes
  let penalty : ℚ :=
    (if dwellLowVar then 2/5 else 0) + (if dwellLowCV then 3/10 else 0) +
    (if flightLowVar then 2/5 else 0) + (if flightLowCV then 3/10 else 0) +
    (if dwellRepeat then 1/5 else 0) + (if flightRepeat then 1/5 else 0)
  let score := clampQ (1 - penalty) 0 1
  { isHuman := decide ((1:ℚ)/2 ≤ score)
    score := score
    flags :=
      (if dwellLowVar then [LivenessFlag.lowDwellVariance] else []) ++
      (if dwellLowCV then [LivenessFlag.suspiciousDwellCV] else []) ++
      (if flightLowVar then [LivenessFlag.lowFlightVariance] else []) ++
      (if flightLowCV then [LivenessFlag.suspiciousFlightCV] else []) ++
      (if dwellRepeat then [LivenessFlag.repeatingDwellPattern] else []) ++
      (if flightRepeat then [LivenessFlag.repeatingFlightPattern] else []) }

/-- The confidence conversion the specification claims for the Match Scorer
(power law): `round(clamp(100 / (1 + d)^1.5, 0, 100))`, with `(1 + d)^1.5`
written as `sqrt((1 + d)^3)`. -/
noncomputable def specConfidence (d : ℝ) : ℤ :=
  jsRoundR (clampR (100 / Real.sqrt ((1 + d) ^ 3)) 0 100)

/-- The per-feature quality formula the specification claims: average
coefficient of variation over positions with positive mean, mapped through
`round(clamp(100 / (1 + avgCV)^1.5, 0, 100))`. -/
noncomputable def specFeatureQuality (stats : FeatureStats) : Option ℤ :=
  let acc := qualityAccum stats
  if acc.2 = 0 then some 0
  else acc.1.map (fun totalCV =>
    jsRoundR (clampR (100 / Real.sqrt ((1 + (((totalCV / (acc.2 : ℚ)) : ℚ) : ℝ)) ^ 3)) 0 100))

/-- The small-sample MAD smoothing the specification claims: with fewer than
8 attempts, blend the stored position MAD toward the feature's global MAD
(over all positions and attempts, flattened) with weight
`min((8 − sampleCount)/8, 1) · 0.3`. -/
def specBlendedMAD (allValues : List (List ℚ)) (i : ℕ) : JSVal :=
  let raw := jindex (buildFeatureStats allValues).mad i
  let globalMAD := qMAD allValues.flatten
  if allValues.length < 8 then
    let w := (min ((8 - (allValues.length : ℚ)) / 8) 1) * (3/10)
    jadd (jmul raw (some (1 - w))) (some (globalMAD * w))
  else raw

def targetTextSample : String := "sample"

def emptyTimings : KeystrokeTimings := ⟨[], [], [], 0⟩

def emptyProfile : BiometricProfile :=
  ⟨⟨[], [], [], []⟩, ⟨[], [], [], []⟩, ⟨[], [], [], []⟩, 0, targetTextSample, 6⟩

/-- A scripted (replayed) attempt: every dwell time exactly 100 ms, every
flight time exactly 100 ms, every down-down latency exactly 200 ms. -/
def roboticTimings : KeystrokeTimings :=
  ⟨[100, 100, 100, 100], [100, 100, 100], [200, 200, 200], 500⟩

def roboticAttempt : CalibrationAttempt := ⟨roboticTimings, true⟩

/-- A profile whose per-position means coincide with `roboticTimings`, built
by the engine itself from one calibration attempt equal to that input. -/
def roboticProfile : BiometricProfile :=
  match buildProfile [roboticAttempt] targetTextSample with
  | Except.ok p => p
  | Except.error _ => emptyProfile

theorem robotic_match_eval :
    calculateMatch roboticTimings roboticProfile =
      { distance := 0, confidence := 100, dwellScore := 0, flightScore := 0, ddScore := 0 } := by
  norm_num [roboticProfile, buildProfile, roboticAttempt, buildFeatureStats, statsStep, transpose,
    roboticTimings, targetTextSample, posMean, posMAD, posMin, posMax, posCleaned, removeOutliers,
    jmean, jsum, jadd, calculateMAD, jabs, jsub, jminList, jmaxList, jmin2, jmax2,
    List.range_succ, calculateMatch, scaledManhattan, jindex, truthyOr, effMAD,
    MIN_MAD_THRESHOLD, FEATURE_WEIGHT_DWELL, FEATURE_WEIGHT_FLIGHT, FEATURE_WEIGHT_DD,
    confFromDistance, clampQ, jsRound, MatchResult.mk.injEq]

theorem robotic_liveness_eval :
    detectLiveness roboticTimings =
      { isHuman := false, score := 0,
        flags := [LivenessFlag.lowDwellVariance, LivenessFlag.suspiciousDwellCV,
          LivenessFlag.lowFlightVariance, LivenessFlag.suspiciousFlightCV,
          LivenessFlag.repeatingDwellPattern, LivenessFlag.repeatingFlightPattern] } := by
  norm_num [detectLiveness, roboticTimings, qvariance, qmean, hasRepeatingPattern,
    MIN_DWELL_STDDEV, MIN_FLIGHT_STDDEV, MIN_HUMAN_CV, clampQ, Liveness.mk.injEq]

theorem jadd_some_zero (x : JSVal) : jadd x (some 0) = x := by
  cases x <;> simp [jadd]

theorem jadd_assoc (a b c : JSVal) : jadd (jadd a b) c = jadd a (jadd b c) := by
  cases a <;> cases b <;> cases c <;> simp [jadd, add_assoc]

theorem foldl_jadd (l : List JSVal) (x : JSVal) : l.foldl jadd x = jadd x (jsum l) := by
  induction l generalizing x with
  | nil => simp [jsum, jadd_some_zero]
  | cons a rest ih =>
    have h1 : jsum (a :: rest) = jadd a (jsum rest) := by
      show (a :: rest).foldl jadd (some 0) = jadd a (jsum rest)
      rw [List.foldl_cons, ih (jadd (some 0) a)]
      cases a <;> simp [jadd]
    rw [List.foldl_cons, ih (jadd x a), h1, jadd_assoc]

theorem jsum_cons (a : JSVal) (l : List JSVal) : jsum (a :: l) = jadd a (jsum l) := by
  show (a :: l).foldl jadd (some 0) = jadd a (jsum l)
  rw [List.foldl_cons, foldl_jadd]
  cases a <;> simp [jadd]

theorem foldl_statsStep (t : List (List JSVal)) (acc : FeatureStats) :
    t.foldl statsStep acc =
      ⟨acc.mean ++ t.map posMean, acc.mad ++ t.map posMAD,
       acc.min ++ t.map posMin, acc.max ++ t.map posMax⟩ := by
  induction t generalizing acc with
  | nil => simp
  | cons pv rest ih =>
    rw [List.foldl_cons, ih]
    simp [statsStep]

/-- The per-position statistics of `buildFeatureStats` are exactly the maps of
the per-position functions over the transposed matrix. -/
theorem buildFeatureStats_eq (rows : List (List ℚ)) :
    buildFeatureStats rows =
      ⟨(transpose rows).map posMean, (transpose rows).map posMAD,
       (transpose rows).map posMin, (transpose rows).map posMax⟩ := by
  unfold buildFeatureStats
  rw [foldl_statsStep]
  simp

/-- The transpose has one entry per column of the first row. -/
theorem transpose_length (rows : List (List ℚ)) :
    (transpose rows).length = (rows.headD []).length := by
  unfold transpose
  split
  · rename_i h
    rw [List.length_eq_zero] at h
    simp [h]
  · simp

theorem effMAD_ge (v : JSVal) : MIN_MAD_THRESHOLD ≤ effMAD v := le_max_right _ _

theorem effMAD_pos (v : JSVal) : 0 < effMAD v :=
  lt_of_lt_of_le (by norm_num [MIN_MAD_THRESHOLD]) (effMAD_ge v)

theorem scaledManhattan_def (a : List ℚ) (m d : List JSVal) :
    scaledManhattan a m d =
      if min a.length (min m.length d.length) = 0 then 10
      else (((List.range (min a.length (min m.length d.length))).map (fun i =>
        min (|a.getD i 0 - truthyOr (jindex m i) 0| / effMAD (jindex d i)) 3)).sum) /
        ((min a.length (min m.length d.length) : ℕ) : ℚ) := rfl

theorem scaledManhattan_nonneg (a : List ℚ) (m d : List JSVal) :
    0 ≤ scaledManhattan a m d := by
  rw [scaledManhattan_def]
  split
  · norm_num
  · apply div_nonneg
    · apply List.sum_nonneg
      intro x hx
      simp only [List.mem_map] at hx
      obtain ⟨i, _, rfl⟩ := hx
      exact le_min (div_nonneg (abs_nonneg _) (le_of_lt (effMAD_pos _))) (by norm_num)
    · positivity

theorem scaledManhattan_le_ten (a : List ℚ) (m d : List JSVal) :
    scaledManhattan a m d ≤ 10 := by
  rw [scaledManhattan_def]
  split
  · norm_num
  · rename_i hlen
    set len := min a.length (min m.length d.length) with hdef
    have hpos : 0 < (len : ℚ) := by
      have : 0 < len := Nat.pos_of_ne_zero hlen
      exact_mod_cast this
    have hsum : (((List.range len).map (fun i =>
        min (|a.getD i 0 - truthyOr (jindex m i) 0| / effMAD (jindex d i)) 3)).sum) ≤
        (len : ℚ) * 3 := by
      have h := List.sum_le_card_nsmul
        ((List.range len).map (fun i =>
          min (|a.getD i 0 - truthyOr (jindex m i) 0| / effMAD (jindex d i)) 3)) 3 ?_
      · simpa [mul_comm] using h
      · intro x hx
        simp only [List.mem_map] at hx
        obtain ⟨i, _, rfl⟩ := hx
        exact min_le_right _ _
    rw [div_le_iff₀ hpos]
    calc (((List.range len).map (fun i =>
        min (|a.getD i 0 - truthyOr (jindex m i) 0| / effMAD (jindex d i)) 3)).sum)
        ≤ (len : ℚ) * 3 := hsum
      _ ≤ 10 * (len : ℚ) := by nlinarith

theorem jsRound_mono {a b : ℚ} (h : a ≤ b) : jsRound a ≤ jsRound b :=
  Int.floor_le_floor (by linarith)

theorem clampQ_mono (lo hi : ℚ) {a b : ℚ} (h : a ≤ b) : clampQ a lo hi ≤ clampQ b lo hi :=
  max_le_max le_rfl (min_le_min le_rfl h)

theorem clampQ_mem (v lo hi : ℚ) (hlohi : lo ≤ hi) :
    lo ≤ clampQ v lo hi ∧ clampQ v lo hi ≤ hi := by
  constructor
  · exact le_max_left _ _
  · apply max_le hlohi (min_le_left _ _)

theorem confFromDistance_antitone {d e : ℚ} (h : d ≤ e) :
    confFromDistance e ≤ confFromDistance d := by
  unfold confFromDistance
  have h1 : (1 - e / (5/2)) * 100 ≤ (1 - d / (5/2)) * 100 := by linarith
  have h2 : clampQ ((1 - e / (5/2)) * 100) 0 100 * 10 ≤
      clampQ ((1 - d / (5/2)) * 100) 0 100 * 10 :=
    mul_le_mul_of_nonneg_right (clampQ_mono 0 100 h1) (by norm_num)
  have h3 : ((jsRound (clampQ ((1 - e / (5/2)) * 100) 0 100 * 10) : ℚ)) ≤
      ((jsRound (clampQ ((1 - d / (5/2)) * 100) 0 100 * 10) : ℚ)) := by
    exact_mod_cast jsRound_mono h2
  linarith

theorem confFromDistance_nonneg (d : ℚ) : 0 ≤ confFromDistance d := by
  unfold confFromDistance
  have h1 : (0:ℚ) ≤ clampQ ((1 - d / (5/2)) * 100) 0 100 := (clampQ_mem _ _ _ (by norm_num)).1
  have h2 : (0:ℤ) ≤ jsRound (clampQ ((1 - d / (5/2)) * 100) 0 100 * 10) := by
    unfold jsRound
    rw [Int.le_floor]
    push_cast
    linarith
  have h3 : (0:ℚ) ≤ (jsRound (clampQ ((1 - d / (5/2)) * 100) 0 100 * 10) : ℚ) := by
    exact_mod_cast h2
  linarith

theorem confFromDistance_le_100 (d : ℚ) : confFromDistance d ≤ 100 := by
  unfold confFromDistance
  have h1 : clampQ ((1 - d / (5/2)) * 100) 0 100 ≤ 100 := (clampQ_mem _ _ _ (by norm_num)).2
  have h2 : jsRound (clampQ ((1 - d / (5/2)) * 100) 0 100 * 10) < 1001 := by
    unfold jsRound
    rw [Int.floor_lt]
    push_cast
    linarith
  have h3 : (jsRound (clampQ ((1 - d / (5/2)) * 100) 0 100 * 10) : ℚ) ≤ 1000 := by
    have : jsRound (clampQ ((1 - d / (5/2)) * 100) 0 100 * 10) ≤ 1000 := by omega
    exact_mod_cast this
  linarith

theorem confFromDistance_zero : confFromDistance 0 = 100 := by
  have h1 : clampQ ((1 - (0:ℚ) / (5/2)) * 100) 0 100 = 100 := by
    unfold clampQ
    norm_num
  have h2 : jsRound ((100:ℚ) * 10) = 1000 := by
    unfold jsRound
    rw [Int.floor_eq_iff]
    constructor <;> norm_num
  unfold confFromDistance
  rw [h1, h2]
  norm_num

theorem confFromDistance_eq_zero {d : ℚ} (h : 5/2 ≤ d) : confFromDistance d = 0 := by
  unfold confFromDistance
  have h1 : (1 - d / (5/2)) * 100 ≤ 0 := by nlinarith
  have h2 : clampQ ((1 - d / (5/2)) * 100) 0 100 = 0 := by
    unfold clampQ
    rw [min_eq_right (le_trans h1 (by norm_num))]
    exact max_eq_left h1
  rw [h2]
  have h3 : jsRound ((0:ℚ) * 10) = 0 := by
    unfold jsRound
    rw [Int.floor_eq_iff]
    constructor <;> norm_num
  rw [h3]
  norm_num

theorem effMAD_some_effMAD (v : JSVal) : effMAD (some (effMAD v)) = effMAD v := by
  have h := effMAD_ge v
  have hne : effMAD v ≠ 0 := by
    intro h0
    rw [h0] at h
    norm_num [MIN_MAD_THRESHOLD] at h
  show max (truthyOr (some (effMAD v)) MIN_MAD_THRESHOLD) MIN_MAD_THRESHOLD = effMAD v
  unfold truthyOr
  simp only [hne, if_false]
  exact max_eq_left h

theorem effMAD_map_some (mads : List JSVal) (i : ℕ) :
    effMAD (jindex (mads.map (fun v => some (effMAD v))) i) = effMAD (jindex mads i) := by
  unfold jindex
  rw [List.get?_map]
  cases h : mads.get? i with
  | none => simp
  | some v => simp [effMAD_some_effMAD]

def singleAttempt : CalibrationAttempt := ⟨⟨[100], [], [], 100⟩, true⟩

/-- C8: `buildProfile` fails (with the no-valid-attempts error) exactly when
the supplied collection contains zero valid calibration attempts, and
otherwise always returns a profile. -/
theorem c8_theorem : ∀ (attempts : List CalibrationAttempt) (t : String),
    (buildProfile attempts t = Except.error BuildError.noValidAttempts ↔
      (attempts.filter (fun a => a.isValid)).length = 0) ∧
    ((∃ p, buildProfile attempts t = Except.ok p) ↔
      (attempts.filter (fun a => a.isValid)).length ≠ 0) := by
  intro attempts t
  by_cases h : (attempts.filter (fun a => a.isValid)).length = 0 <;>
    simp [buildProfile, h]

/-- C5 (amended): the 40 ms floor is not applied to the stored profile MADs;
instead the scorer applies it at use time — the effective divisor of
`scaledManhattan` is always at least `MIN_MAD_THRESHOLD`, and the scorer is
insensitive to replacing every stored MAD by its floored value. -/
theorem c5_amended :
    (∀ v : JSVal, MIN_MAD_THRESHOLD ≤ effMAD v) ∧
    (∀ (a : List ℚ) (m mads : List JSVal),
      scaledManhattan a m (mads.map (fun v => some (effMAD v))) = scaledManhattan a m mads) := by
  refine ⟨effMAD_ge, fun a m mads => ?_⟩
  by_cases hlen : min a.length (min m.length mads.length) = 0
  · rw [scaledManhattan_def, scaledManhattan_def, List.length_map, hlen]
    simp
  · rw [scaledManhattan_def, scaledManhattan_def, List.length_map, if_neg hlen, if_neg hlen]
    have hmaps : (List.range (min a.length (min m.length mads.length))).map
        (fun i => min (|a.getD i 0 - truthyOr (jindex m i) 0| /
          effMAD (jindex (mads.map (fun v => some (effMAD v))) i)) 3) =
        (List.range (min a.length (min m.length mads.length))).map
        (fun i => min (|a.getD i 0 - truthyOr (jindex m i) 0| / effMAD (jindex mads i)) 3) := by
      apply List.map_congr_left
      intro i _
      rw [effMAD_map_some]
    rw [hmaps]

/-- C5 counterexample: a profile built from one valid calibration attempt
stores a dwell MAD of 0, strictly below the claimed 40 ms floor. -/
theorem c5_counterexample :
    singleAttempt.isValid = true ∧
    (buildProfile [singleAttempt] targetTextSample).toOption.map (fun p => p.dwell.mad) =
      some [some 0] ∧
    ¬ (MIN_MAD_THRESHOLD ≤ (0:ℚ)) := by
  refine ⟨rfl, ?_, by norm_num [MIN_MAD_THRESHOLD]⟩
  norm_num [buildProfile, singleAttempt, buildFeatureStats, statsStep, transpose, posMean, posMAD,
    posCleaned, removeOutliers, jmean, jsum, jadd, calculateMAD, jabs, jsub, posMin, posMax,
    jminList, jmaxList, List.range_succ, Except.toOption]

/-- C7 (amended): no small-sample smoothing is performed — the stored MAD of
every position is the raw MAD of that position's outlier-cleaned values
(`posMAD`), independent of how many attempts contributed. -/
theorem c7_amended : ∀ rows : List (List ℚ),
    (buildFeatureStats rows).mad = (transpose rows).map posMAD ∧
    (buildFeatureStats rows).mean = (transpose rows).map posMean := by
  intro rows
  rw [buildFeatureStats_eq]
  exact ⟨rfl, rfl⟩

/-- C7 counterexample: with 2 attempts (fewer than 8) the stored MAD at
position 0 is the raw value 0, not the spec's blended value 135/8 (nor that
value after the 40 ms floor). -/
theorem c7_counterexample :
    jindex (buildFeatureStats [[100, 100], [100, 300]]).mad 0 = some 0 ∧
    specBlendedMAD [[100, 100], [100, 300]] 0 = some (135/8) ∧
    ((some (0:ℚ) : JSVal) ≠ some ((135:ℚ)/8)) ∧
    ((some (0:ℚ) : JSVal) ≠ some (max ((135:ℚ)/8) MIN_MAD_THRESHOLD)) := by
  have hstats : (buildFeatureStats [[100, 100], [100, 300]]).mad = [some 0, some 100] := by
    norm_num [buildFeatureStats, statsStep, transpose, posMean, posMAD, posCleaned,
      removeOutliers, jmean, jsum, jadd, calculateMAD, jabs, jsub, posMin, posMax,
      jminList, jmaxList, jmin2, jmax2, List.range_succ]
  refine ⟨?_, ?_, by norm_num, ?_⟩
  · rw [hstats]
    rfl
  · rw [specBlendedMAD, hstats]
    norm_num [qMAD, qmean, jindex, jadd, jmul]
  · have : max ((135:ℚ)/8) MIN_MAD_THRESHOLD = 40 := by
      rw [max_eq_right]
      · rfl
      · norm_num [MIN_MAD_THRESHOLD]
    rw [this]
    norm_num

/-- C10: the per-position statistics arrays are sized by the first (valid)
attempt's series; positions missing from later shorter attempts yield `NaN`
statistics, and positions beyond the first attempt's length are dropped. -/
theorem c10_theorem :
    (∀ rows : List (List ℚ),
      (buildFeatureStats rows).mean.length = (rows.headD []).length ∧
      (buildFeatureStats rows).mad.length = (rows.headD []).length ∧
      (buildFeatureStats rows).min.length = (rows.headD []).length ∧
      (buildFeatureStats rows).max.length = (rows.headD []).length) ∧
    (∀ (attempts : List CalibrationAttempt) (t : String) (p : BiometricProfile),
      buildProfile attempts t = Except.ok p →
      (attempts.filter (fun a => a.isValid)).head?.map
        (fun a => a.timings.dwellTimes.length) = some p.dwell.mean.length) ∧
    (buildFeatureStats [[10, 20], [30]]).mean = [some 20, none] ∧
    (buildFeatureStats [[10, 20], [30]]).mad = [some 10, none] ∧
    (buildFeatureStats [[10, 20], [30]]).min = [some 10, none] ∧
    (buildFeatureStats [[10, 20], [30]]).max = [some 30, none] ∧
    (buildFeatureStats [[10], [20, 30]]).mean = [some 15] := by
  have hlen : ∀ rows : List (List ℚ),
      (buildFeatureStats rows).mean.length = (rows.headD []).length ∧
      (buildFeatureStats rows).mad.length = (rows.headD []).length ∧
      (buildFeatureStats rows).min.length = (rows.headD []).length ∧
      (buildFeatureStats rows).max.length = (rows.headD []).length := by
    intro rows
    rw [buildFeatureStats_eq]
    simp [transpose_length]
  refine ⟨hlen, ?_, ?_, ?_, ?_, ?_, ?_⟩
  · intro attempts t p hp
    simp only [buildProfile] at hp
    by_cases h : (attempts.filter (fun a => a.isValid)).length = 0
    · rw [if_pos h] at hp
      exact absurd hp (by simp)
    · rw [if_neg h, Except.ok.injEq] at hp
      subst hp
      cases hfil : attempts.filter (fun a => a.isValid) with
      | nil =>
        rw [hfil] at h
        simp at h
      | cons a rest =>
        simp only [hfil, List.head?_cons, Option.map_some']
        have hthis := (hlen ((a :: rest).map (fun a => a.timings.dwellTimes))).1
        simp only [List.map_cons, List.headD_cons] at hthis
        simp only [List.map_cons, hthis]
  all_goals
    norm_num [buildFeatureStats, statsStep, transpose, posMean, posMAD, posCleaned,
      removeOutliers, jmean, jsum, jadd, calculateMAD, jabs, jsub, posMin, posMax,
      jminList, jmaxList, jmin2, jmax2, List.range_succ]

/-- The profile produced by `buildProfile [singleAttempt]`, written out. -/
def singleProfile : BiometricProfile :=
  { dwell := buildFeatureStats [[100]]
    flight := buildFeatureStats [[]]
    dd := buildFeatureStats [[]]
    sampleCount := 1
    targetText := targetTextSample
    textLength := targetTextSample.length }

/-- C10 witness: the buildProfile length statement applied to a concrete
profile build. -/
theorem c10_witness :
    ([singleAttempt].filter (fun a => a.isValid)).head?.map
      (fun a => a.timings.dwellTimes.length) = some singleProfile.dwell.mean.length := by
  apply c10_theorem.2.1 [singleAttempt] targetTextSample singleProfile
  rfl

theorem confFromDistance_ge_55 {d : ℚ} (h : d < 11/20) :
    (55:ℚ) ≤ confFromDistance d := by
  unfold confFromDistance
  have h1 : (78:ℚ) ≤ (1 - d / (5/2)) * 100 := by nlinarith
  have h2 : (78:ℚ) ≤ clampQ ((1 - d / (5/2)) * 100) 0 100 := by
    unfold clampQ
    exact le_trans (le_min (by norm_num) h1) (le_max_right _ _)
  have h4 : jsRound (780:ℚ) = 780 := by
    unfold jsRound
    rw [Int.floor_eq_iff]
    constructor <;> norm_num
  have h3 : (780:ℤ) ≤ jsRound (clampQ ((1 - d / (5/2)) * 100) 0 100 * 10) := by
    calc (780:ℤ) = jsRound (780:ℚ) := h4.symm
      _ ≤ _ := jsRound_mono (by linarith)
  have h5 : (780:ℚ) ≤ (jsRound (clampQ ((1 - d / (5/2)) * 100) 0 100 * 10) : ℚ) := by
    exact_mod_cast h3
  linarith

/-- C1 (amended): the mantra decision branches on the distance alone — grant
iff distance < THRESHOLD_ACCEPT (0.55), deny iff distance > THRESHOLD_REJECT
(1.1), otherwise require the challenge; no liveness condition exists, and the
claimed confidence condition is subsumed: every granted match result carries
confidence at least MIN_CONFIDENCE_ACCEPT (55). -/
theorem c1_amended :
    (∀ m : MatchResult,
      (decideMantra m = AuthStatus.granted ↔ m.distance < THRESHOLD_ACCEPT) ∧
      (decideMantra m = AuthStatus.denied ↔ THRESHOLD_REJECT < m.distance) ∧
      (decideMantra m = AuthStatus.challenge ↔
        THRESHOLD_ACCEPT ≤ m.distance ∧ m.distance ≤ THRESHOLD_REJECT)) ∧
    (∀ (t : KeystrokeTimings) (p : BiometricProfile),
      decideMantra (calculateMatch t p) = AuthStatus.granted →
        MIN_CONFIDENCE_ACCEPT ≤ (calculateMatch t p).confidence) := by
  have hmain : ∀ m : MatchResult,
      (decideMantra m = AuthStatus.granted ↔ m.distance < THRESHOLD_ACCEPT) ∧
      (decideMantra m = AuthStatus.denied ↔ THRESHOLD_REJECT < m.distance) ∧
      (decideMantra m = AuthStatus.challenge ↔
        THRESHOLD_ACCEPT ≤ m.distance ∧ m.distance ≤ THRESHOLD_REJECT) := by
    intro m
    unfold decideMantra THRESHOLD_ACCEPT THRESHOLD_REJECT
    split_ifs with h1 h2
    · refine ⟨by simpa using h1, ?_, ?_⟩
      · simp only [false_iff, reduceCtorEq]
        intro hcon
        linarith
      · simp only [false_iff, reduceCtorEq, not_and, not_le]
        intro hcon
        linarith
    · refine ⟨?_, by simpa using h2, ?_⟩
      · simp only [false_iff, reduceCtorEq, not_lt]
        linarith
      · simp only [false_iff, reduceCtorEq, not_and, not_le]
        intro _
        linarith
    · refine ⟨?_, ?_, by simp [not_lt.mp h1, not_lt.mp h2]⟩
      · simp only [false_iff, reduceCtorEq, not_lt]
        exact not_lt.mp h1
      · simp only [false_iff, reduceCtorEq, not_lt]
        exact not_lt.mp h2
  refine ⟨hmain, fun t p hg => ?_⟩
  have hd : (calculateMatch t p).distance < THRESHOLD_ACCEPT := ((hmain _).1).mp hg
  have hconf : (calculateMatch t p).confidence =
      confFromDistance (calculateMatch t p).distance := rfl
  rw [hconf]
  unfold MIN_CONFIDENCE_ACCEPT
  exact confFromDistance_ge_55 hd

/-- C1 counterexample: a scripted attempt with zero timing variance matches
its profile at distance 0; the liveness detector of the specification judges
it non-human with score 0 (so the claimed policy would not grant — indeed
its reject clause fires), yet the code grants access. -/
theorem c1_counterexample :
    decideMantra (calculateMatch roboticTimings roboticProfile) = AuthStatus.granted ∧
    (detectLiveness roboticTimings).isHuman = false ∧
    (detectLiveness roboticTimings).score < 3/10 := by
  refine ⟨?_, ?_, ?_⟩
  · rw [robotic_match_eval]
    norm_num [decideMantra, THRESHOLD_ACCEPT, THRESHOLD_REJECT]
  · rw [robotic_liveness_eval]
  · rw [robotic_liveness_eval]
    norm_num

/-- C1 witness: the granted-implies-confidence part of the amended claim at a
concrete granted input. -/
theorem c1_witness :
    MIN_CONFIDENCE_ACCEPT ≤ (calculateMatch roboticTimings roboticProfile).confidence := by
  apply c1_amended.2 roboticTimings roboticProfile
  rw [robotic_match_eval]
  norm_num [decideMantra, THRESHOLD_ACCEPT, THRESHOLD_REJECT]

/-- C3: evaluating `calculateMatch` on an attempt that the specification's
liveness detector judges non-human (score 0): no `(1 − score) × 1.5` penalty
is added — the distance stays 0 — and the returned `MatchResult` (the
structure defined above, matching what the code constructs) carries no
liveness component at all. -/
theorem c3_evaluation :
    (calculateMatch roboticTimings roboticProfile).distance = 0 ∧
    (detectLiveness roboticTimings).isHuman = false ∧
    (detectLiveness roboticTimings).score = 0 := by
  refine ⟨?_, ?_, ?_⟩
  · rw [robotic_match_eval]
  · rw [robotic_liveness_eval]
  · rw [robotic_liveness_eval]

/-- C4 (amended): after the challenge match the policy computes
`combinedDistance = mantra×0.55 + answer×0.45` and grants access iff that
combined distance is below CHALLENGE_THRESHOLD (0.9), otherwise denies; no
confidence or liveness condition is checked and the outcome is final (always
GRANTED or DENIED, never another challenge). -/
theorem c4_amended : ∀ mantraDistance answerDistance : ℚ,
    (decideChallenge mantraDistance answerDistance = AuthStatus.granted ↔
      combinedDistance mantraDistance answerDistance < CHALLENGE_THRESHOLD) ∧
    (decideChallenge mantraDistance answerDistance = AuthStatus.denied ↔
      CHALLENGE_THRESHOLD ≤ combinedDistance mantraDistance answerDistance) ∧
    (combinedDistance mantraDistance answerDistance =
      mantraDistance * (11/20) + answerDistance * (9/20)) ∧
    (decideChallenge mantraDistance answerDistance = AuthStatus.granted ∨
      decideChallenge mantraDistance answerDistance = AuthStatus.denied) := by
  intro md ad
  unfold decideChallenge
  split_ifs with h
  · refine ⟨by simpa using h, ?_, rfl, Or.inl rfl⟩
    simp only [false_iff, reduceCtorEq, not_le]
    exact h
  · refine ⟨?_, by simpa using not_lt.mp h, rfl, Or.inr rfl⟩
    simp only [false_iff, reduceCtorEq, not_lt]
    exact not_lt.mp h

/-- C4 counterexample: a mantra distance of 0.7 (challenge band) combined
with a perfectly matching but scripted secret answer: the code grants, while
the claimed policy requires the answer attempt to be human or have liveness
score at least 0.4 — the specification's detector gives it score 0. -/
theorem c4_counterexample :
    decideChallenge (7/10) (calculateMatch roboticTimings roboticProfile).distance =
      AuthStatus.granted ∧
    (detectLiveness roboticTimings).isHuman = false ∧
    (detectLiveness roboticTimings).score < 2/5 := by
  refine ⟨?_, ?_, ?_⟩
  · rw [robotic_match_eval]
    norm_num [decideChallenge, combinedDistance, CHALLENGE_THRESHOLD,
      CHALLENGE_WEIGHT_MANTRA, CHALLENGE_WEIGHT_ANSWER]
  · rw [robotic_liveness_eval]
  · rw [robotic_liveness_eval]
    norm_num

/-- C4 witness: the amended decision at concrete distances on both sides of
the threshold. -/
theorem c4_witness :
    decideChallenge 2 2 = AuthStatus.denied ∧ decideChallenge 0 0 = AuthStatus.granted := by
  constructor
  · exact ((c4_amended 2 2).2.1).mpr (by norm_num [combinedDistance, CHALLENGE_THRESHOLD,
      CHALLENGE_WEIGHT_MANTRA, CHALLENGE_WEIGHT_ANSWER])
  · exact ((c4_amended 0 0).1).mpr (by norm_num [combinedDistance, CHALLENGE_THRESHOLD,
      CHALLENGE_WEIGHT_MANTRA, CHALLENGE_WEIGHT_ANSWER])

/-- C9: the scorer substitutes the sentinel 10 whenever zero positions are
comparable, every per-feature score lies in [0, 10], and every numeric field
of the returned MatchResult is a (finite) rational with distance in [0, 10]
and confidence in [0, 100]. -/
theorem c9_theorem :
    (∀ (a : List ℚ) (m d : List JSVal),
      min a.length (min m.length d.length) = 0 → scaledManhattan a m d = 10) ∧
    (∀ (a : List ℚ) (m d : List JSVal),
      0 ≤ scaledManhattan a m d ∧ scaledManhattan a m d ≤ 10) ∧
    (∀ (t : KeystrokeTimings) (p : BiometricProfile),
      0 ≤ (calculateMatch t p).distance ∧ (calculateMatch t p).distance ≤ 10 ∧
      0 ≤ (calculateMatch t p).confidence ∧ (calculateMatch t p).confidence ≤ 100) := by
  refine ⟨?_, fun a m d => ⟨scaledManhattan_nonneg a m d, scaledManhattan_le_ten a m d⟩, ?_⟩
  · intro a m d h
    rw [scaledManhattan_def, if_pos h]
  · intro t p
    have h1a := scaledManhattan_nonneg t.dwellTimes p.dwell.mean p.dwell.mad
    have h1b := scaledManhattan_le_ten t.dwellTimes p.dwell.mean p.dwell.mad
    have h2a := scaledManhattan_nonneg t.flightTimes p.flight.mean p.flight.mad
    have h2b := scaledManhattan_le_ten t.flightTimes p.flight.mean p.flight.mad
    have h3a := scaledManhattan_nonneg t.ddLatencies p.dd.mean p.dd.mad
    have h3b := scaledManhattan_le_ten t.ddLatencies p.dd.mean p.dd.mad
    have hd : (calculateMatch t p).distance =
        scaledManhattan t.dwellTimes p.dwell.mean p.dwell.mad * FEATURE_WEIGHT_DWELL +
        scaledManhattan t.flightTimes p.flight.mean p.flight.mad * FEATURE_WEIGHT_FLIGHT +
        scaledManhattan t.ddLatencies p.dd.mean p.dd.mad * FEATURE_WEIGHT_DD := rfl
    have hc : (calculateMatch t p).confidence =
        confFromDistance (calculateMatch t p).distance := rfl
    refine ⟨?_, ?_, ?_, ?_⟩
    · rw [hd]
      unfold FEATURE_WEIGHT_DWELL FEATURE_WEIGHT_FLIGHT FEATURE_WEIGHT_DD
      linarith
    · rw [hd]
      unfold FEATURE_WEIGHT_DWELL FEATURE_WEIGHT_FLIGHT FEATURE_WEIGHT_DD
      linarith
    · rw [hc]
      exact confFromDistance_nonneg _
    · rw [hc]
      exact confFromDistance_le_100 _

/-- C9 witness: the sentinel clause applied at empty inputs, and the bounds
at a concrete match. -/
theorem c9_witness :
    scaledManhattan [] [] [] = 10 ∧ 0 ≤ (calculateMatch emptyTimings emptyProfile).distance :=
  ⟨c9_theorem.1 [] [] [] (by norm_num), (c9_theorem.2.2 emptyTimings emptyProfile).1⟩

theorem jadd_zero_left (x : JSVal) : jadd (some 0) x = x := by
  cases x <;> simp [jadd]

/-- The coefficients of variation of the positions with positive mean, in
position order — the declarative counterpart of the quality loop. -/
def cvList (stats : FeatureStats) : List JSVal :=
  (List.range stats.mean.length).filterMap (fun i =>
    if jlt (some 0) (jindex stats.mean i) then
      some (jdiv (jindex stats.mad i) (jindex stats.mean i))
    else none)

theorem qualityAccum_aux (stats : FeatureStats) (l : List ℕ) (s : JSVal) (c : ℕ) :
    l.foldl (fun acc i =>
      if jlt (some 0) (jindex stats.mean i) then
        (jadd acc.1 (jdiv (jindex stats.mad i) (jindex stats.mean i)), acc.2 + 1)
      else acc) (s, c) =
    (jadd s (jsum (l.filterMap (fun i =>
        if jlt (some 0) (jindex stats.mean i) then
          some (jdiv (jindex stats.mad i) (jindex stats.mean i))
        else none))),
     c + (l.filterMap (fun i =>
        if jlt (some 0) (jindex stats.mean i) then
          some (jdiv (jindex stats.mad i) (jindex stats.mean i))
        else none)).length) := by
  induction l generalizing s c with
  | nil => simp [jsum, jadd_some_zero]
  | cons i rest ih =>
    by_cases h : jlt (some 0) (jindex stats.mean i) = true
    · rw [List.foldl_cons]
      simp only [h, if_true]
      rw [ih]
      have hcons : (i :: rest).filterMap (fun j =>
          if jlt (some 0) (jindex stats.mean j) then
            some (jdiv (jindex stats.mad j) (jindex stats.mean j))
          else none) =
          jdiv (jindex stats.mad i) (jindex stats.mean i) :: rest.filterMap (fun j =>
          if jlt (some 0) (jindex stats.mean j) then
            some (jdiv (jindex stats.mad j) (jindex stats.mean j))
          else none) := by
        simp [List.filterMap_cons, h]
      rw [hcons, jsum_cons]
      simp only [Prod.mk.injEq, List.length_cons]
      exact ⟨jadd_assoc _ _ _, by omega⟩
    · rw [List.foldl_cons, if_neg h, ih]
      have hcons : (i :: rest).filterMap (fun j =>
          if jlt (some 0) (jindex stats.mean j) then
            some (jdiv (jindex stats.mad j) (jindex stats.mean j))
          else none) =
          rest.filterMap (fun j =>
          if jlt (some 0) (jindex stats.mean j) then
            some (jdiv (jindex stats.mad j) (jindex stats.mean j))
          else none) := by
        simp [List.filterMap_cons, h]
      rw [hcons]

/-- The quality loop accumulates exactly the sum and the count of the
coefficient-of-variation list. -/
theorem qualityAccum_eq (stats : FeatureStats) :
    qualityAccum stats = (jsum (cvList stats), (cvList stats).length) := by
  unfold qualityAccum cvList
  rw [qualityAccum_aux]
  simp only [Prod.mk.injEq]
  exact ⟨jadd_zero_left _, by omega⟩

/-- C6 (amended): the per-feature quality is the exponential-decay map
`round(clamp(exp(−2·avgCV)·100, 0, 100))` of the average coefficient of
variation over positions with positive mean (not the power-law map the
specification states). -/
theorem c6_amended : ∀ stats : FeatureStats,
    calculateProfileQuality stats =
      (if (cvList stats).length = 0 then some 0
       else (jsum (cvList stats)).map (fun totalCV =>
         jsRoundR (clampR (Real.exp
           (-(((totalCV / ((cvList stats).length : ℚ)) : ℚ) : ℝ) * 2) * 100) 0 100))) := by
  intro stats
  have hdef : calculateProfileQuality stats =
      (if (qualityAccum stats).2 = 0 then some 0
       else (qualityAccum stats).1.map (fun totalCV =>
         jsRoundR (clampR (Real.exp
           (-(((totalCV / ((qualityAccum stats).2 : ℚ)) : ℚ) : ℝ) * 2) * 100) 0 100))) := rfl
  rw [hdef, qualityAccum_eq]

theorem empty_match_eval :
    calculateMatch emptyTimings emptyProfile =
      { distance := 10, confidence := 0, dwellScore := 10, flightScore := 10, ddScore := 10 } := by
  norm_num [calculateMatch, emptyTimings, emptyProfile, scaledManhattan, jindex, truthyOr,
    effMAD, MIN_MAD_THRESHOLD, FEATURE_WEIGHT_DWELL, FEATURE_WEIGHT_FLIGHT, FEATURE_WEIGHT_DD,
    confFromDistance, clampQ, jsRound, MatchResult.mk.injEq]

/-- C2 (amended): the confidence field of every MatchResult equals the linear
conversion `round₁(clamp((1 − distance/2.5)·100, 0, 100))` of its distance
(one-decimal rounding); this conversion is monotonically non-increasing in
the distance, equals 100 at distance 0, and reaches exactly 0 at every
distance of 2.5 or more (it is not asymptotic). -/
theorem c2_amended :
    (∀ (t : KeystrokeTimings) (p : BiometricProfile),
      (calculateMatch t p).confidence = confFromDistance (calculateMatch t p).distance) ∧
    (∀ d e : ℚ, d ≤ e → confFromDistance e ≤ confFromDistance d) ∧
    confFromDistance 0 = 100 ∧
    (∀ d : ℚ, 5/2 ≤ d → confFromDistance d = 0) :=
  ⟨fun _ _ => rfl, fun _ _ h => confFromDistance_antitone h, confFromDistance_zero,
    fun _ h => confFromDistance_eq_zero h⟩

/-- C2 witness: the amended conversion at concrete distances. -/
theorem c2_witness : confFromDistance 3 = 0 ∧ confFromDistance 0 = 100 :=
  ⟨c2_amended.2.2.2 3 (by norm_num), c2_amended.2.2.1⟩

theorem sqrt_1331_bounds : (36.48:ℝ) < Real.sqrt 1331 ∧ Real.sqrt 1331 < 36.49 := by
  constructor
  · rw [Real.lt_sqrt (by norm_num)]
    norm_num
  · rw [Real.sqrt_lt' (by norm_num)]
    norm_num

theorem specConfidence_ten : specConfidence 10 = 3 := by
  unfold specConfidence
  rw [show ((1:ℝ) + 10) ^ 3 = 1331 by norm_num]
  obtain ⟨hlo, hhi⟩ := sqrt_1331_bounds
  have hpos : (0:ℝ) < Real.sqrt 1331 := lt_trans (by norm_num) hlo
  have hv1 : (2.5:ℝ) ≤ 100 / Real.sqrt 1331 := by
    rw [le_div_iff₀ hpos]
    nlinarith
  have hv2 : 100 / Real.sqrt 1331 < (3.5:ℝ) := by
    rw [div_lt_iff₀ hpos]
    nlinarith
  have hcl : clampR (100 / Real.sqrt 1331) 0 100 = 100 / Real.sqrt 1331 := by
    unfold clampR
    rw [min_eq_right (by linarith), max_eq_right (by positivity)]
  rw [hcl]
  unfold jsRoundR
  rw [Int.floor_eq_iff]
  constructor
  · push_cast
    linarith
  · push_cast
    linarith

/-- C2 counterexample: on an attempt and profile with no comparable positions
the distance is the sentinel 10; the code reports confidence 0, while the
claimed power-law conversion would give round(100/11^1.5) = 3. -/
theorem c2_counterexample :
    (calculateMatch emptyTimings emptyProfile).distance = 10 ∧
    (calculateMatch emptyTimings emptyProfile).confidence = 0 ∧
    specConfidence (((calculateMatch emptyTimings emptyProfile).distance : ℚ) : ℝ) = 3 ∧
    (calculateMatch emptyTimings emptyProfile).confidence ≠
      ((specConfidence (((calculateMatch emptyTimings emptyProfile).distance : ℚ) : ℝ) : ℤ) : ℚ) := by
  have he := empty_match_eval
  have hcast : ((((10:ℚ)):ℝ)) = (10:ℝ) := by norm_num
  refine ⟨by rw [he], by rw [he], ?_, ?_⟩
  · rw [he]
    show specConfidence ((10:ℚ):ℝ) = 3
    rw [hcast]
    exact specConfidence_ten
  · rw [he]
    show (0:ℚ) ≠ ((specConfidence ((10:ℚ):ℝ) : ℤ) : ℚ)
    rw [hcast, specConfidence_ten]
    norm_num

theorem hundred_exp_neg_two_bounds :
    (13.5:ℝ) ≤ Real.exp (-2) * 100 ∧ Real.exp (-2) * 100 < (14.5:ℝ) := by
  have he1 := Real.exp_one_gt_d9
  have he2 := Real.exp_one_lt_d9
  have hpos := Real.exp_pos (1:ℝ)
  have h2 : Real.exp (2:ℝ) = Real.exp 1 * Real.exp 1 := by
    rw [show (2:ℝ) = 1 + 1 by norm_num, Real.exp_add]
  have hneg : Real.exp (-2:ℝ) = (Real.exp 2)⁻¹ := Real.exp_neg 2
  have hp2 : (0:ℝ) < Real.exp 2 := Real.exp_pos 2
  have hub : Real.exp 2 < 7.3891 := by
    rw [h2]
    nlinarith
  have hlb : (7.389:ℝ) < Real.exp 2 := by
    rw [h2]
    nlinarith
  constructor
  · rw [hneg, inv_mul_eq_div, le_div_iff₀ hp2]
    nlinarith
  · rw [hneg, inv_mul_eq_div, div_lt_iff₀ hp2]
    nlinarith

theorem sqrt_eight_bounds : (2.82:ℝ) < Real.sqrt 8 ∧ Real.sqrt 8 < 2.8285 := by
  constructor
  · rw [Real.lt_sqrt (by norm_num)]
    norm_num
  · rw [Real.sqrt_lt' (by norm_num)]
    norm_num

theorem stats0_accum : qualityAccum (buildFeatureStats [[0], [200]]) = (some 1, 1) := by
  norm_num [qualityAccum, buildFeatureStats, statsStep, transpose, posMean, posMAD, posCleaned,
    removeOutliers, jmean, jsum, jadd, calculateMAD, jabs, jsub, posMin, posMax, jminList,
    jmaxList, jmin2, jmax2, List.range_succ, jindex, jlt, jdiv]

/-- C6 counterexample: for the feature statistics built from the two dwell
series [0] and [200] the average coefficient of variation is 1; the code's
exponential formula gives quality 14, the claimed power-law formula gives
35. -/
theorem c6_counterexample :
    calculateProfileQuality (buildFeatureStats [[0], [200]]) = some 14 ∧
    specFeatureQuality (buildFeatureStats [[0], [200]]) = some 35 ∧
    ((14:ℤ) ≠ 35) := by
  have hdef1 : calculateProfileQuality (buildFeatureStats [[0], [200]]) =
      (if (qualityAccum (buildFeatureStats [[0], [200]])).2 = 0 then some 0
       else (qualityAccum (buildFeatureStats [[0], [200]])).1.map (fun totalCV =>
         jsRoundR (clampR (Real.exp
           (-(((totalCV / ((qualityAccum (buildFeatureStats [[0], [200]])).2 : ℚ)) : ℚ) : ℝ) * 2) * 100)
           0 100))) := rfl
  have hdef2 : specFeatureQuality (buildFeatureStats [[0], [200]]) =
      (if (qualityAccum (buildFeatureStats [[0], [200]])).2 = 0 then some 0
       else (qualityAccum (buildFeatureStats [[0], [200]])).1.map (fun totalCV =>
         jsRoundR (clampR (100 / Real.sqrt
           ((1 + (((totalCV / ((qualityAccum (buildFeatureStats [[0], [200]])).2 : ℚ)) : ℚ) : ℝ)) ^ 3))
           0 100))) := rfl
  refine ⟨?_, ?_, by norm_num⟩
  · rw [hdef1, stats0_accum]
    simp only [Option.map_some']
    norm_num
    obtain ⟨hlo, hhi⟩ := hundred_exp_neg_two_bounds
    have hcl : clampR (Real.exp (-2) * 100) 0 100 = Real.exp (-2) * 100 := by
      unfold clampR
      rw [min_eq_right (by linarith), max_eq_right (by positivity)]
    rw [hcl]
    unfold jsRoundR
    rw [Int.floor_eq_iff]
    constructor
    · push_cast
      linarith
    · push_cast
      linarith
  · rw [hdef2, stats0_accum]
    simp only [Option.map_some']
    norm_num
    obtain ⟨hlo, hhi⟩ := sqrt_eight_bounds
    have hpos : (0:ℝ) < Real.sqrt 8 := lt_trans (by norm_num) hlo
    have hv1 : (34.5:ℝ) ≤ 100 / Real.sqrt 8 := by
      rw [le_div_iff₀ hpos]
      nlinarith
    have hv2 : 100 / Real.sqrt 8 < (35.5:ℝ) := by
      rw [div_lt_iff₀ hpos]
      nlinarith
    have hcl : clampR (100 / Real.sqrt 8) 0 100 = 100 / Real.sqrt 8 := by
      unfold clampR
      rw [min_eq_right (by linarith), max_eq_right (by positivity)]
    rw [hcl]
    unfold jsRoundR
    rw [Int.floor_eq_iff]
    constructor
    · push_cast
      linarith
    · push_cast
      linarith
